import Mathlib

/- Verification development for the ECS Fargate deployment script
   `src/Jenkins/deploy.py`.

   The script is a single linear procedure driven by remote AWS calls.  We
   embed it shallowly: the ambient AWS state (parameter store, target
   groups, services, the identity of the account, and the identifiers the
   cloud will mint for freshly created resources) is a record `AwsWorld`,
   every remote API request is recorded in a trace of `AwsCall` values,
   `print` output is a list of strings, and `sys.exit` / uncaught Python
   exceptions are the non-`ok` constructors of `Outcome`.

   Python string operations that the script relies on are modelled
   explicitly: `str.replace(old, new)` for the fixed pattern `"-service"`
   (function `dropService`, left-to-right, non-overlapping, exactly
   Python's semantics for a non-empty pattern) and `str.split(',')`
   (function `splitComma`, which keeps empty fields and never trims). -/

namespace Deploy

/-- An ECS service as returned by `describe_services`: the fields the
script reads (`serviceArn` at line 115, `status` at line 123). -/
structure ServiceDesc where
  serviceArn : String
  status : String
  deriving DecidableEq

/-- The ambient AWS state seen by one run of the script.
`ssmParams` maps an existing parameter path to its stored value (the
script never reads the value).  `targetGroups` maps a target-group name
to its ARN.  `services` is keyed by (cluster, service name).  `newTgArn`
and `newTaskDefArn` are the identifiers AWS would mint for a resource
created during this run. -/
structure AwsWorld where
  region : String
  accountId : String
  ssmParams : List (String × String)
  targetGroups : List (String × String)
  services : List (String × String × ServiceDesc)
  newTgArn : String
  newTaskDefArn : String
  deriving DecidableEq

/-- One entry of the `secrets` list of a container definition
(lines 71–74). -/
structure SecretRef where
  name : String
  valueFrom : String
  deriving DecidableEq

/-- The arguments of the `ecs.register_task_definition` call
(lines 78–103), flattened. -/
structure TaskDefParams where
  family : String
  networkMode : String
  requiresCompatibilities : List String
  cpu : String
  memory : String
  executionRoleArn : String
  taskRoleArn : String
  containerName : String
  image : String
  essential : Bool
  containerPort : Nat
  secrets : List SecretRef
  logGroup : String
  logRegion : String
  logStreamPrefix : String
  deriving DecidableEq

/-- The arguments of the `elbv2.create_target_group` call (lines 49–58). -/
structure CreateTgParams where
  name : String
  protocol : String
  port : Nat
  vpcId : String
  targetType : String
  healthCheckProtocol : String
  healthCheckPath : String
  matcherHttpCode : String
  deriving DecidableEq

/-- The arguments of the `ecs.create_service` call (lines 136–156),
flattened (`loadBalancers` always holds exactly one entry). -/
structure CreateServiceParams where
  cluster : String
  serviceName : String
  taskDefinition : String
  launchType : String
  desiredCount : Nat
  subnets : List String
  securityGroups : List String
  assignPublicIp : String
  lbTargetGroupArn : String
  lbContainerName : String
  lbContainerPort : Nat
  deriving DecidableEq

/-- The arguments of the `ecs.update_service` call (lines 128–133). -/
structure UpdateServiceParams where
  cluster : String
  service : String
  taskDefinition : String
  forceNewDeployment : Bool
  deriving DecidableEq

/-- One remote AWS API request issued by the script.  Every constructor
is a network round-trip to an AWS endpoint. -/
inductive AwsCall where
  | getCallerIdentity
  | getParameter (name : String)
  | describeTargetGroups (names : List String)
  | createTargetGroup (p : CreateTgParams)
  | registerTaskDefinition (p : TaskDefParams)
  | describeServices (cluster : String) (services : List String)
  | createService (p : CreateServiceParams)
  | updateService (p : UpdateServiceParams)
  deriving DecidableEq

/-- How a (piece of the) script terminates: normally with a value,
via `sys.exit(code)`, or with an uncaught Python exception. -/
inductive Outcome (α : Type) where
  | ok (a : α)
  | exited (code : Nat)
  | uncaught (exn : String)
  deriving DecidableEq

/-- Result of running a fragment of the script: its outcome, the remote
calls it issued (in order) and the lines it printed (in order). -/
structure Res (α : Type) where
  outcome : Outcome α
  calls : List AwsCall
  prints : List String
  deriving DecidableEq

/-- Result of `get_or_create_target_group`: the returned ARN, the AWS
state after the call (creation inserts the new group), calls, prints. -/
structure TgResult where
  arn : String
  world : AwsWorld
  calls : List AwsCall
  prints : List String
  deriving DecidableEq

/-- Result of `deploy_service` (it returns nothing and cannot fail in
the modelled fragment). -/
structure DeployResult where
  calls : List AwsCall
  prints : List String
  deriving DecidableEq

/-- A YAML document, as produced by `yaml.safe_load` for the documents
this script consumes (mapping keys are strings). -/
inductive Yaml where
  | null
  | str (s : String)
  | seq (items : List Yaml)
  | map (entries : List (String × Yaml))

/-- The configuration file named by `--env-yml`, abstracted to what the
load at lines 177–183 can observe: opening it raises, parsing it raises,
or it parses to a YAML document. -/
inductive ConfigSrc where
  | unreadable (msg : String)
  | malformed (msg : String)
  | doc (y : Yaml)

/-- The command-line arguments (lines 164–170).  `env_yml_path` is the
`--env-yml` string itself (used in the diagnostic), `env_yml` what
reading that file yields. -/
structure Args where
  image : String
  env_yml_path : String
  env_yml : ConfigSrc
  vpc_id : String
  cluster : String
  project : String
  subnets : String
  security_groups : String

/- ---------- Python string primitives used by the script ---------- -/

/-- The pattern `"-service"` of the `replace` at line 152, as chars. -/
def svcPat : List Char := ['-', 's', 'e', 'r', 'v', 'i', 'c', 'e']

/-- Boolean prefix test on char lists. -/
def isPrefixCh : List Char → List Char → Bool
  | [], _ => true
  | _ :: _, [] => false
  | a :: as, b :: bs => a == b && isPrefixCh as bs

/-- Boolean contiguous-subsequence (substring) test: does `pat` occur
somewhere in the list?  Models Python's `pat in s`. -/
def containsSeq (pat : List Char) : List Char → Bool
  | [] => isPrefixCh pat []
  | c :: cs => isPrefixCh pat (c :: cs) || containsSeq pat cs

/-- `dropService fuel l` removes every occurrence of `svcPat` from `l`,
scanning left to right, skipping past each match (non-overlapping):
Python's `l.replace('-service', '')`.  `fuel` bounds the recursion; one
unit is spent per step and the list shrinks by at least one character
per step, so `fuel = l.length` never runs out. -/
def dropService : Nat → List Char → List Char
  | _, [] => []
  | 0, l => l
  | fuel + 1, c :: cs =>
    if isPrefixCh svcPat (c :: cs) then dropService fuel (List.drop 7 cs)
    else c :: dropService fuel cs

/-- `s.replace('-service', '')` (line 152). -/
def pyStripService (s : String) : String :=
  List.asString (dropService s.toList.length s.toList)

/-- `splitComma l` is Python's `s.split(',')` on char lists: fields in
order, empty fields kept (`""` splits to `[""]`, a trailing comma yields
a trailing empty field), nothing trimmed. -/
def splitComma : List Char → List (List Char)
  | [] => [[]]
  | c :: cs =>
    match splitComma cs with
    | [] => [[]]
    | g :: gs => if c = ',' then [] :: g :: gs else (c :: g) :: gs

/-- The inverse direction: re-join fields with commas. -/
def joinComma : List (List Char) → List Char
  | [] => []
  | [g] => g
  | g :: gs => g ++ ',' :: joinComma gs

/-- Python's `s.split(',')` on strings (lines 207–208). -/
def pySplitComma (s : String) : List String :=
  (splitComma s.toList).map List.asString

/- ---------- lookups into the ambient AWS state ---------- -/

/-- First-match association lookup with string keys. -/
def lookupStr {α : Type} (key : String) : List (String × α) → Option α
  | [] => none
  | (k, v) :: rest => if k = key then some v else lookupStr key rest

/-- Does `name` exist in the parameter store (and with which value)? -/
def lookupParam (w : AwsWorld) (name : String) : Option String :=
  lookupStr name w.ssmParams

/-- Existence of a parameter path, forgetting the value. -/
def paramExists (w : AwsWorld) (name : String) : Bool :=
  (lookupParam w name).isSome

/-- ARN of the target group of that name, if one exists. -/
def lookupTg (w : AwsWorld) (name : String) : Option String :=
  lookupStr name w.targetGroups

/-- Find the service `(cluster, name)` among the existing services. -/
def findSvc (cluster name : String) : List (String × String × ServiceDesc) → Option ServiceDesc
  | [] => none
  | (c, n, d) :: rest =>
    if c = cluster ∧ n = name then some d else findSvc cluster name rest

/-- What `ecs.describe_services(cluster=..., services=[name])` reports:
the matching service description, or nothing. -/
def lookupService (w : AwsWorld) (cluster name : String) : Option ServiceDesc :=
  findSvc cluster name w.services

/- ---------- printed messages (f-strings of the source) ---------- -/

/-- Line 32: diagnostic for a parameter path absent from the store. -/
def ssmMissingMsg (param_name : String) : String :=
  "❌ Error Crítico: El parámetro \x27" ++ param_name ++
    "\x27 definido en env.yml NO existe en AWS Parameter Store."

/-- Line 43. -/
def tgFoundMsg (tg_name : String) : String :=
  "✅ Target Group existente encontrado: " ++ tg_name

/-- Line 46. -/
def tgCreateMsg (tg_name : String) : String :=
  "⚠️ Target Group \x27" ++ tg_name ++ "\x27 no existe. Creando uno nuevo..."

/-- Line 65. -/
def regGenMsg : String :=
  "🔄 Generando configuración de secretos..."

/-- Line 76. -/
def regRegisterMsg (project_name : String) : String :=
  "📝 Registrando nueva Task Definition para: " ++ project_name

/-- Line 110. -/
def deployStartMsg (service_name : String) : String :=
  "🚀 Iniciando despliegue del servicio: " ++ service_name

/-- Line 127. -/
def deployUpdateMsg : String :=
  "🔄 El servicio existe. Ejecutando Update (Rolling Deployment)..."

/-- Line 135. -/
def deployCreateMsg : String :=
  "✨ El servicio NO existe. Creando servicio nuevo..."

/-- Line 157. -/
def deployDoneMsg : String :=
  "✅ Orden de despliegue enviada a ECS exitosamente."

/-- Line 174. -/
def bannerMsg (project : String) : String :=
  "--- 🏁 Iniciando Script de Despliegue: " ++ project ++ " ---"

/-- Line 182: `f"❌ Error leyendo {args.env_yml}: {e}"`. -/
def configDiag (env_yml_path err : String) : String :=
  "❌ Error leyendo " ++ env_yml_path ++ ": " ++ err

/-- Line 211. -/
def finalMsg : String :=
  "--- 🏁 Despliegue finalizado. Monitorea el cluster en la consola AWS ---"

/-- `str` of the Python exception raised by `.items()` on a non-dict
(line 69 when `env_vars_map` is not a mapping). -/
def attributeErrorMsg : String :=
  "AttributeError: object has no attribute \x27items\x27"

/-- `str` of the botocore error raised by `ssm.get_parameter(Name=v)`
when `v` is not a string (possible only for malformed YAML values). -/
def paramValidationMsg : String :=
  "ParamValidationError: invalid type for parameter Name"

/- ---------- the script's functions ---------- -/

/-- `get_account_id` (lines 15–17): one STS `get_caller_identity` call. -/
def get_account_id (w : AwsWorld) : String × List AwsCall :=
  (w.accountId, [AwsCall.getCallerIdentity])

/-- The ARN string built at line 30, a pure function of region, account
id and parameter name. -/
def mkSsmArn (region accountId param_name : String) : String :=
  "arn:aws:ssm:" ++ region ++ ":" ++ accountId ++ ":parameter" ++ param_name

/-- `get_ssm_parameter_arn` (lines 19–33).  `ssm.get_parameter` raises
`ParameterNotFound` when the path does not exist, in which case the
script prints a diagnostic and exits with status 1.  On success the
region is read locally from the session (no remote call) and the account
id via `get_account_id` (one STS call). -/
def get_ssm_parameter_arn (w : AwsWorld) (param_name : String) : Res String :=
  match lookupParam w param_name with
  | some _ =>
    ⟨Outcome.ok (mkSsmArn w.region w.accountId param_name),
     [AwsCall.getParameter param_name, AwsCall.getCallerIdentity], []⟩
  | none =>
    ⟨Outcome.exited 1, [AwsCall.getParameter param_name], [ssmMissingMsg param_name]⟩

/-- The fixed argument record of `create_target_group` (lines 49–58). -/
def mkCreateTgParams (tg_name : String) (port : Nat) (vpc_id : String) : CreateTgParams :=
  { name := tg_name, protocol := "HTTP", port := port, vpcId := vpc_id,
    targetType := "ip", healthCheckProtocol := "HTTP", healthCheckPath := "/",
    matcherHttpCode := "200-299" }

/-- `get_or_create_target_group` (lines 35–59): describe by the
deterministic name `<project>-tg`; if found return its ARN unchanged,
otherwise create the group (AWS mints `w.newTgArn`) and return the new
ARN. -/
def get_or_create_target_group (w : AwsWorld) (vpc_id project_name : String) (port : Nat) : TgResult :=
  let tg_name := project_name ++ "-tg"
  match lookupTg w tg_name with
  | some arn =>
    ⟨arn, w, [AwsCall.describeTargetGroups [tg_name]], [tgFoundMsg tg_name]⟩
  | none =>
    ⟨w.newTgArn,
     { w with targetGroups := (tg_name, w.newTgArn) :: w.targetGroups },
     [AwsCall.describeTargetGroups [tg_name],
      AwsCall.createTargetGroup (mkCreateTgParams tg_name port vpc_id)],
     [tgCreateMsg tg_name]⟩

/-- The loop at lines 69–74: resolve each mapped path to a `SecretRef`.
Each value must be a string (otherwise `get_parameter` rejects it); the
first missing path aborts the whole process via `sys.exit(1)` inside
`get_ssm_parameter_arn`. -/
def buildSecrets (w : AwsWorld) : List (String × Yaml) → Res (List SecretRef)
  | [] => ⟨Outcome.ok [], [], []⟩
  | (env_var_name, v) :: rest =>
    match v with
    | Yaml.str ssm_path =>
      match get_ssm_parameter_arn w ssm_path with
      | ⟨Outcome.ok arn, calls, prints⟩ =>
        match buildSecrets w rest with
        | ⟨Outcome.ok secrets, calls2, prints2⟩ =>
          ⟨Outcome.ok ({ name := env_var_name, valueFrom := arn } :: secrets),
           calls ++ calls2, prints ++ prints2⟩
        | ⟨Outcome.exited c, calls2, prints2⟩ =>
          ⟨Outcome.exited c, calls ++ calls2, prints ++ prints2⟩
        | ⟨Outcome.uncaught e, calls2, prints2⟩ =>
          ⟨Outcome.uncaught e, calls ++ calls2, prints ++ prints2⟩
      | ⟨Outcome.exited c, calls, prints⟩ => ⟨Outcome.exited c, calls, prints⟩
      | ⟨Outcome.uncaught e, calls, prints⟩ => ⟨Outcome.uncaught e, calls, prints⟩
    | _ => ⟨Outcome.uncaught paramValidationMsg, [], []⟩

/-- The argument record of `register_task_definition` (lines 78–103). -/
def mkTaskDefParams (image_uri project_name execution_role_arn : String)
    (secrets_config : List SecretRef) (region : String) : TaskDefParams :=
  { family := project_name, networkMode := "awsvpc",
    requiresCompatibilities := ["FARGATE"], cpu := "256", memory := "512",
    executionRoleArn := execution_role_arn, taskRoleArn := execution_role_arn,
    containerName := project_name ++ "-container", image := image_uri,
    essential := true, containerPort := 8000, secrets := secrets_config,
    logGroup := "/ecs/" ++ project_name, logRegion := region,
    logStreamPrefix := "ecs" }

/-- `register_task_definition` (lines 61–104).  `.items()` on a
non-mapping raises an uncaught `AttributeError`; otherwise the secrets
are resolved one by one and a single `register_task_definition` API call
is issued, returning the freshly minted revision ARN. -/
def register_task_definition (w : AwsWorld) (image_uri project_name execution_role_arn : String)
    (env_vars_map : Yaml) : Res String :=
  match env_vars_map with
  | Yaml.map entries =>
    match buildSecrets w entries with
    | ⟨Outcome.ok secrets_config, calls, prints⟩ =>
      ⟨Outcome.ok w.newTaskDefArn,
       calls ++ [AwsCall.registerTaskDefinition
         (mkTaskDefParams image_uri project_name execution_role_arn secrets_config w.region)],
       regGenMsg :: prints ++ [regRegisterMsg project_name]⟩
    | ⟨Outcome.exited c, calls, prints⟩ => ⟨Outcome.exited c, calls, regGenMsg :: prints⟩
    | ⟨Outcome.uncaught e, calls, prints⟩ => ⟨Outcome.uncaught e, calls, regGenMsg :: prints⟩
  | _ => ⟨Outcome.uncaught attributeErrorMsg, [], [regGenMsg]⟩

/-- The combined existence check of lines 113–124: the first probe marks
the service missing on an `IndexError` (empty `services` list); the
second probe re-marks it missing when the list is empty or the status is
`INACTIVE`.  Net effect: the service "exists" iff it is described and
its status is not `INACTIVE`. -/
def serviceExistsCheck (w : AwsWorld) (cluster_name service_name : String) : Bool :=
  match lookupService w cluster_name service_name with
  | none => false
  | some svc => if svc.status = "INACTIVE" then false else true

/-- The argument record of `create_service` (lines 136–156).  Note the
load-balancer container name is rebuilt from the service name by
stripping `'-service'` (line 152). -/
def mkCreateServiceParams (cluster_name service_name task_def_arn tg_arn : String)
    (subnets security_groups : List String) : CreateServiceParams :=
  { cluster := cluster_name, serviceName := service_name,
    taskDefinition := task_def_arn, launchType := "FARGATE", desiredCount := 1,
    subnets := subnets, securityGroups := security_groups,
    assignPublicIp := "ENABLED", lbTargetGroupArn := tg_arn,
    lbContainerName := pyStripService service_name ++ "-container",
    lbContainerPort := 8000 }

/-- `deploy_service` (lines 106–157): two `describe_services` probes,
then exactly one mutation — `update_service` with `forceNewDeployment`
when an active service was found, `create_service` otherwise. -/
def deploy_service (w : AwsWorld) (cluster_name service_name task_def_arn tg_arn : String)
    (subnets security_groups : List String) : DeployResult :=
  let probes := [AwsCall.describeServices cluster_name [service_name],
                 AwsCall.describeServices cluster_name [service_name]]
  if serviceExistsCheck w cluster_name service_name then
    ⟨probes ++ [AwsCall.updateService ⟨cluster_name, service_name, task_def_arn, true⟩],
     [deployStartMsg service_name, deployUpdateMsg, deployDoneMsg]⟩
  else
    ⟨probes ++ [AwsCall.createService
        (mkCreateServiceParams cluster_name service_name task_def_arn tg_arn subnets security_groups)],
     [deployStartMsg service_name, deployCreateMsg, deployDoneMsg]⟩

/-- The subscript `yaml.safe_load(f)['variables']` (line 180) on the
parsed document: on a mapping it is a key lookup (`KeyError` when the
key is absent), on anything else it raises a `TypeError`. -/
def subscriptVariables : Yaml → Except String Yaml
  | Yaml.map entries =>
    match lookupStr "variables" entries with
    | some v => Except.ok v
    | none => Except.error "\x27variables\x27"
  | Yaml.null => Except.error "\x27NoneType\x27 object is not subscriptable"
  | Yaml.str _ => Except.error "string indices must be integers"
  | Yaml.seq _ => Except.error "list indices must be integers or slices, not str"

/-- Lines 177–183: open + parse + subscript, any raised exception is
caught and reported (`Except.error` carries `str(e)`). -/
def loadEnvMap : ConfigSrc → Except String Yaml
  | ConfigSrc.unreadable msg => Except.error msg
  | ConfigSrc.malformed msg => Except.error msg
  | ConfigSrc.doc y => subscriptVariables y

/-- The execution-role ARN built at line 191. -/
def execRoleArn (account_id : String) : String :=
  "arn:aws:iam::" ++ account_id ++ ":role/ecsTaskExecutionRole"

/-- The `__main__` block (lines 160–211): load config (exit 1 on any
exception), get-or-create the target group, fetch the account id for the
execution role ARN, register the task definition (which may exit 1 on a
missing secret or raise), then create-or-update the service with the
comma-split subnet and security-group lists. -/
def mainRun (w : AwsWorld) (args : Args) : Res Unit :=
  let banner := bannerMsg args.project
  match loadEnvMap args.env_yml with
  | Except.error e =>
    ⟨Outcome.exited 1, [], [banner, configDiag args.env_yml_path e]⟩
  | Except.ok env_map =>
    let tg := get_or_create_target_group w args.vpc_id args.project 8000
    let acct := get_account_id tg.world
    let exec_role_arn := execRoleArn acct.1
    let reg := register_task_definition tg.world args.image args.project exec_role_arn env_map
    match reg.outcome with
    | Outcome.ok td_arn =>
      let dep := deploy_service tg.world args.cluster (args.project ++ "-service")
        td_arn tg.arn (pySplitComma args.subnets) (pySplitComma args.security_groups)
      ⟨Outcome.ok (), tg.calls ++ acct.2 ++ reg.calls ++ dep.calls,
       banner :: (tg.prints ++ reg.prints ++ dep.prints) ++ [finalMsg]⟩
    | Outcome.exited c =>
      ⟨Outcome.exited c, tg.calls ++ acct.2 ++ reg.calls, banner :: (tg.prints ++ reg.prints)⟩
    | Outcome.uncaught e =>
      ⟨Outcome.uncaught e, tg.calls ++ acct.2 ++ reg.calls, banner :: (tg.prints ++ reg.prints)⟩

/- ---------- classifiers over call traces ---------- -/

/-- The `create_service` calls in a trace, with their arguments. -/
def createParamsOf (calls : List AwsCall) : List CreateServiceParams :=
  calls.filterMap fun c => match c with
    | AwsCall.createService p => some p
    | _ => none

/-- The `update_service` calls in a trace, with their arguments. -/
def updateCallsOf (calls : List AwsCall) : List UpdateServiceParams :=
  calls.filterMap fun c => match c with
    | AwsCall.updateService p => some p
    | _ => none

/-- The `register_task_definition` calls in a trace. -/
def registerCallsOf (calls : List AwsCall) : List TaskDefParams :=
  calls.filterMap fun c => match c with
    | AwsCall.registerTaskDefinition p => some p
    | _ => none

/-- The `create_target_group` calls in a trace. -/
def createTgCallsOf (calls : List AwsCall) : List CreateTgParams :=
  calls.filterMap fun c => match c with
    | AwsCall.createTargetGroup p => some p
    | _ => none

/-- Every `AwsCall` constructor is a remote API round-trip. -/
def isRemoteCall (_ : AwsCall) : Bool := true

/-- The first parameter path among `entries` (in mapping order) that is
absent from the store `ps`. -/
def firstMissingParam (ps : List (String × String)) : List (String × String) → Option String
  | [] => none
  | (_, path) :: rest =>
    match lookupStr path ps with
    | some _ => firstMissingParam ps rest
    | none => some path

/-- The claim-side reading of the reconciler's ABSENT state: no service
of that name is found, or the found one is in the terminal `INACTIVE`
status. -/
def serviceAbsentOrInactive (w : AwsWorld) (cluster name : String) : Prop :=
  lookupService w cluster name = none ∨
    ∃ svc, lookupService w cluster name = some svc ∧ svc.status = "INACTIVE"

/-- The target-group stage of `__main__` (line 186). -/
def mainTg (w : AwsWorld) (args : Args) : TgResult :=
  get_or_create_target_group w args.vpc_id args.project 8000

/-- The registration stage of `__main__` (lines 190–199). -/
def mainReg (w : AwsWorld) (args : Args) (env_map : Yaml) : Res String :=
  register_task_definition (mainTg w args).world args.image args.project
    (execRoleArn (mainTg w args).world.accountId) env_map

/-- The service-deployment stage of `__main__` (lines 202–209). -/
def mainDep (w : AwsWorld) (args : Args) (td_arn : String) : DeployResult :=
  deploy_service (mainTg w args).world args.cluster (args.project ++ "-service")
    td_arn (mainTg w args).arn (pySplitComma args.subnets) (pySplitComma args.security_groups)

/- ---------- concrete fixtures used by witnesses ---------- -/

/-- A world with one stored parameter, no target group, no service. -/
def demoWorld : AwsWorld :=
  { region := "us-east-1", accountId := "123456789012",
    ssmParams := [("/prod/db_pass", "hunter2")], targetGroups := [],
    services := [], newTgArn := "arn:tg/new", newTaskDefArn := "arn:td/new" }

/-- The same world with an active service for cluster `clu`. -/
def demoWorldActive : AwsWorld :=
  { demoWorld with services := [("clu", "proj-service", ⟨"arn:svc/1", "ACTIVE"⟩)] }

/-- A configuration mapping one variable to the stored path. -/
def demoCfg : ConfigSrc :=
  ConfigSrc.doc (Yaml.map [("variables", Yaml.map [("DB_PASS", Yaml.str "/prod/db_pass")])])

/-- Arguments for a healthy demo run. -/
def demoArgs : Args :=
  { image := "img:1", env_yml_path := "env.yml", env_yml := demoCfg,
    vpc_id := "vpc-1", cluster := "clu", project := "proj",
    subnets := "subnet-a,subnet-b", security_groups := "sg-1," }

/-- Arguments whose configuration file cannot be opened. -/
def demoArgsBadCfg : Args :=
  { demoArgs with
    env_yml := ConfigSrc.unreadable "[Errno 2] No such file or directory: \x27env.yml\x27" }

/-- Arguments whose configuration names a path absent from the store. -/
def demoArgsMissing : Args :=
  { demoArgs with
    env_yml := ConfigSrc.doc (Yaml.map [("variables", Yaml.map [("DB", Yaml.str "/prod/absent")])]) }

/-- Arguments whose configuration has `variables: null`. -/
def demoArgsNullVars : Args :=
  { demoArgs with env_yml := ConfigSrc.doc (Yaml.map [("variables", Yaml.null)]) }

/- ---------- lemmas about the Python string primitives ---------- -/

theorem dropService_nil (fuel : Nat) : dropService fuel [] = [] := by
  cases fuel <;> simp [dropService]

theorem dropService_cons_pos (fuel : Nat) (c : Char) (cs : List Char)
    (h : isPrefixCh svcPat (c :: cs) = true) :
    dropService (fuel + 1) (c :: cs) = dropService fuel (List.drop 7 cs) := by
  simp [dropService, h]

theorem dropService_cons_neg (fuel : Nat) (c : Char) (cs : List Char)
    (h : isPrefixCh svcPat (c :: cs) = false) :
    dropService (fuel + 1) (c :: cs) = c :: dropService fuel cs := by
  simp [dropService, h]

/-- `isPrefixCh` agrees with the `take`-characterisation of prefixes. -/
theorem isPrefixCh_iff_take : ∀ (pat l : List Char),
    isPrefixCh pat l = true ↔ List.take pat.length l = pat
  | [], l => by simp [isPrefixCh]
  | a :: as, [] => by simp [isPrefixCh]
  | a :: as, b :: bs => by
    simp only [isPrefixCh, List.length_cons, List.take_succ_cons, Bool.and_eq_true, beq_iff_eq]
    rw [isPrefixCh_iff_take as bs]
    constructor
    · rintro ⟨rfl, h⟩; rw [h]
    · intro h
      injection h with h1 h2
      exact ⟨h1.symm, h2⟩

/-- Any initial segment of a list is one of its prefixes. -/
theorem isPrefixCh_take : ∀ (k : Nat) (l : List Char), isPrefixCh (List.take k l) l = true
  | 0, l => by simp [isPrefixCh]
  | k + 1, [] => by simp [isPrefixCh]
  | k + 1, c :: cs => by
    simp only [List.take_succ_cons, isPrefixCh, beq_self_eq_true, Bool.true_and]
    exact isPrefixCh_take k cs

/-- The pattern `"-service"` does not overlap itself: no proper
nonempty suffix of it is one of its prefixes. -/
theorem svcPat_no_overlap (m : Nat) (h1 : 0 < m) (h2 : m < 8) :
    isPrefixCh (List.drop m svcPat) svcPat = false := by
  interval_cases m <;> decide

/-- If `"-service"` occurs nowhere in the nonempty list `x`, appending
`"-service"` creates no occurrence at the head of `x ++ "-service"`. -/
theorem notPrefixApp (x : List Char) (hne : x ≠ []) (hx : isPrefixCh svcPat x = false) :
    isPrefixCh svcPat (x ++ svcPat) = false := by
  by_contra hcon
  rw [Bool.not_eq_false, isPrefixCh_iff_take] at hcon
  have hlen : (svcPat : List Char).length = 8 := rfl
  rcases le_or_lt 8 x.length with hle | hlt
  · rw [hlen, List.take_append_eq_append_take] at hcon
    have h0 : 8 - x.length = 0 := Nat.sub_eq_zero_of_le hle
    rw [h0, List.take_zero, List.append_nil] at hcon
    have hpre : isPrefixCh svcPat x = true := by
      rw [isPrefixCh_iff_take, hlen]; exact hcon
    simp [hx] at hpre
  · rw [hlen, List.take_append_eq_append_take,
      List.take_of_length_le (le_of_lt hlt)] at hcon
    have hdrop : List.drop x.length svcPat = List.take (8 - x.length) svcPat := by
      conv_lhs => rw [← hcon]
      rw [List.drop_left]
    have hpre : isPrefixCh (List.drop x.length svcPat) svcPat = true := by
      rw [hdrop]; exact isPrefixCh_take _ _
    have hpos : 0 < x.length := List.length_pos.mpr hne
    rw [svcPat_no_overlap x.length hpos hlt] at hpre
    cases hpre

/-- Removing all `"-service"` occurrences from `p ++ "-service"` gives
back `p`, provided `"-service"` occurs nowhere in `p` itself. -/
theorem dropService_append : ∀ (p : List Char) (fuel : Nat),
    containsSeq svcPat p = false → p.length + 8 ≤ fuel →
    dropService fuel (p ++ svcPat) = p
  | [], fuel, _, hf => by
    cases fuel with
    | zero => simp at hf
    | succ f =>
      show dropService (f + 1) ('-' :: ['s', 'e', 'r', 'v', 'i', 'c', 'e']) = []
      rw [dropService_cons_pos f _ _ (by decide)]
      rw [show List.drop 7 (['s', 'e', 'r', 'v', 'i', 'c', 'e'] : List Char) = [] from rfl]
      exact dropService_nil f
  | c :: cs, fuel, hc, hf => by
    have hc' := hc
    simp only [containsSeq, Bool.or_eq_false_iff] at hc'
    cases fuel with
    | zero => simp only [List.length_cons] at hf; omega
    | succ f =>
      have hpre : isPrefixCh svcPat (c :: (cs ++ svcPat)) = false :=
        notPrefixApp (c :: cs) (List.cons_ne_nil c cs) hc'.1
      show dropService (f + 1) (c :: (cs ++ svcPat)) = c :: cs
      rw [dropService_cons_neg f _ _ hpre]
      have hlen : cs.length + 8 ≤ f := by
        simp only [List.length_cons] at hf
        omega
      rw [dropService_append cs f hc'.2 hlen]

/-- String version: `(s + "-service").replace("-service", "") == s`
whenever `"-service"` does not occur in `s`. -/
theorem pyStripService_append (s : String) (h : containsSeq svcPat s.toList = false) :
    pyStripService (s ++ "-service") = s := by
  have hdata : (s ++ "-service").toList = s.toList ++ svcPat := by
    show (s ++ "-service").data = s.data ++ svcPat
    rw [String.data_append]
    rfl
  unfold pyStripService
  rw [hdata]
  rw [dropService_append s.toList (s.toList ++ svcPat).length h
    (by rw [List.length_append]; exact Nat.le_refl _)]
  cases s with
  | mk data => rfl

theorem splitComma_ne_nil : ∀ (l : List Char), splitComma l ≠ []
  | [] => by simp [splitComma]
  | c :: cs => by
    have h := splitComma_ne_nil cs
    simp only [splitComma]
    cases hs : splitComma cs with
    | nil => exact absurd hs h
    | cons g gs =>
      show (if c = ',' then [] :: g :: gs else (c :: g) :: gs) ≠ []
      split <;> simp

/-- Splitting on commas is lossless: re-inserting the commas between
the fields gives back the original character list.  In particular the
split preserves order, trims nothing and drops no empty field. -/
theorem joinComma_splitComma : ∀ (l : List Char), joinComma (splitComma l) = l
  | [] => rfl
  | c :: cs => by
    have hrec := joinComma_splitComma cs
    simp only [splitComma]
    cases hs : splitComma cs with
    | nil => exact absurd hs (splitComma_ne_nil cs)
    | cons g gs =>
      rw [hs] at hrec
      by_cases hc : c = ','
      · subst hc
        show joinComma (if (',' : Char) = ',' then [] :: g :: gs else ((',' :: g) :: gs)) = ',' :: cs
        rw [if_pos rfl]
        exact congrArg (List.cons ',') hrec
      · show joinComma (if c = ',' then [] :: g :: gs else ((c :: g) :: gs)) = c :: cs
        rw [if_neg hc]
        cases gs with
        | nil => exact congrArg (List.cons c) hrec
        | cons h2 t2 => exact congrArg (List.cons c) hrec

/- ---------- lemmas about the call traces of each stage ---------- -/

/-- The secret resolver only talks to SSM and STS. -/
theorem get_ssm_calls_shape (w : AwsWorld) (p : String) :
    ∀ c ∈ (get_ssm_parameter_arn w p).calls,
      (∃ q, c = AwsCall.getParameter q) ∨ c = AwsCall.getCallerIdentity := by
  unfold get_ssm_parameter_arn
  cases lookupParam w p with
  | none =>
    intro c hc
    simp only [List.mem_singleton] at hc
    exact Or.inl ⟨p, hc⟩
  | some v =>
    intro c hc
    simp only [List.mem_cons, List.mem_singleton, List.not_mem_nil, or_false] at hc
    rcases hc with rfl | rfl
    · exact Or.inl ⟨p, rfl⟩
    · exact Or.inr rfl

/-- The secrets-resolution loop only talks to SSM and STS. -/
theorem buildSecrets_calls_shape (w : AwsWorld) :
    ∀ (entries : List (String × Yaml)), ∀ c ∈ (buildSecrets w entries).calls,
      (∃ q, c = AwsCall.getParameter q) ∨ c = AwsCall.getCallerIdentity := by
  intro entries
  induction entries with
  | nil => intro c hc; simp [buildSecrets] at hc
  | cons e rest ih =>
    intro c hc
    obtain ⟨n, v⟩ := e
    cases v with
    | str ssm_path =>
      have hs := get_ssm_calls_shape w ssm_path
      simp only [buildSecrets] at hc
      cases hg : get_ssm_parameter_arn w ssm_path with
      | mk og cg pg =>
        rw [hg] at hc hs
        cases og with
        | ok arn =>
          cases hb : buildSecrets w rest with
          | mk ob cb pb =>
            rw [hb] at hc ih
            cases ob with
            | ok secrets =>
              simp only [List.mem_append] at hc
              rcases hc with hc | hc
              · exact hs c hc
              · exact ih c hc
            | exited code =>
              simp only [List.mem_append] at hc
              rcases hc with hc | hc
              · exact hs c hc
              · exact ih c hc
            | uncaught exn =>
              simp only [List.mem_append] at hc
              rcases hc with hc | hc
              · exact hs c hc
              · exact ih c hc
        | exited code => exact hs c hc
        | uncaught exn => exact hs c hc
    | null => simp [buildSecrets] at hc
    | seq items => simp [buildSecrets] at hc
    | map entries2 => simp [buildSecrets] at hc

/-- No service/target-group mutation and no task-definition registration
happens while resolving secrets. -/
theorem buildSecrets_no_mutations (w : AwsWorld) (entries : List (String × Yaml)) :
    createParamsOf (buildSecrets w entries).calls = [] ∧
    updateCallsOf (buildSecrets w entries).calls = [] ∧
    registerCallsOf (buildSecrets w entries).calls = [] ∧
    createTgCallsOf (buildSecrets w entries).calls = [] := by
  refine ⟨?_, ?_, ?_, ?_⟩ <;>
    · simp only [createParamsOf, updateCallsOf, registerCallsOf, createTgCallsOf]
      rw [List.filterMap_eq_nil_iff]
      intro a ha
      rcases buildSecrets_calls_shape w entries a ha with ⟨q, rfl⟩ | rfl <;> rfl

/-- When the group already exists, the resolver performs only the
describe call and leaves the state untouched. -/
theorem gct_exists (w : AwsWorld) (vpc_id project_name : String) (port : Nat) (arn : String)
    (h : lookupTg w (project_name ++ "-tg") = some arn) :
    get_or_create_target_group w vpc_id project_name port =
      ⟨arn, w, [AwsCall.describeTargetGroups [project_name ++ "-tg"]],
       [tgFoundMsg (project_name ++ "-tg")]⟩ := by
  simp only [get_or_create_target_group]
  rw [h]

/-- When the group is absent, the resolver describes, creates once, and
records the new group in the state. -/
theorem gct_absent (w : AwsWorld) (vpc_id project_name : String) (port : Nat)
    (h : lookupTg w (project_name ++ "-tg") = none) :
    get_or_create_target_group w vpc_id project_name port =
      ⟨w.newTgArn,
       { w with targetGroups := (project_name ++ "-tg", w.newTgArn) :: w.targetGroups },
       [AwsCall.describeTargetGroups [project_name ++ "-tg"],
        AwsCall.createTargetGroup (mkCreateTgParams (project_name ++ "-tg") port vpc_id)],
       [tgCreateMsg (project_name ++ "-tg")]⟩ := by
  simp only [get_or_create_target_group]
  rw [h]

/-- The target-group stage issues no service mutation, no registration,
and always at least one call (the describe). -/
theorem gct_calls_shape (w : AwsWorld) (vpc_id project_name : String) (port : Nat) :
    createParamsOf (get_or_create_target_group w vpc_id project_name port).calls = [] ∧
    updateCallsOf (get_or_create_target_group w vpc_id project_name port).calls = [] ∧
    registerCallsOf (get_or_create_target_group w vpc_id project_name port).calls = [] ∧
    (get_or_create_target_group w vpc_id project_name port).calls ≠ [] := by
  cases h : lookupTg w (project_name ++ "-tg") with
  | none =>
    rw [gct_absent w vpc_id project_name port h]
    simp [createParamsOf, updateCallsOf, registerCallsOf]
  | some arn =>
    rw [gct_exists w vpc_id project_name port arn h]
    simp [createParamsOf, updateCallsOf, registerCallsOf]

/-- The target-group stage never touches the parameter store, the
account, the services, or the identifier oracles. -/
theorem gct_world_fields (w : AwsWorld) (vpc_id project_name : String) (port : Nat) :
    (get_or_create_target_group w vpc_id project_name port).world.region = w.region ∧
    (get_or_create_target_group w vpc_id project_name port).world.accountId = w.accountId ∧
    (get_or_create_target_group w vpc_id project_name port).world.ssmParams = w.ssmParams ∧
    (get_or_create_target_group w vpc_id project_name port).world.services = w.services ∧
    (get_or_create_target_group w vpc_id project_name port).world.newTaskDefArn = w.newTaskDefArn := by
  cases h : lookupTg w (project_name ++ "-tg") with
  | none => rw [gct_absent w vpc_id project_name port h]; simp
  | some arn => rw [gct_exists w vpc_id project_name port arn h]; simp

/-- The registrar stage issues no service mutation. -/
theorem register_no_service_calls (w : AwsWorld) (img proj role : String) (y : Yaml) :
    createParamsOf (register_task_definition w img proj role y).calls = [] ∧
    updateCallsOf (register_task_definition w img proj role y).calls = [] := by
  cases y with
  | map entries =>
    simp only [register_task_definition]
    cases hb : buildSecrets w entries with
    | mk ob cb pb =>
      have hm := buildSecrets_no_mutations w entries
      rw [hb] at hm
      cases ob with
      | ok secrets =>
        simp [createParamsOf, updateCallsOf, List.filterMap_append] at hm ⊢
        exact ⟨hm.1, hm.2.1⟩
      | exited code => exact ⟨hm.1, hm.2.1⟩
      | uncaught exn => exact ⟨hm.1, hm.2.1⟩
  | null => exact ⟨rfl, rfl⟩
  | str s => exact ⟨rfl, rfl⟩
  | seq items => exact ⟨rfl, rfl⟩

/-- On success the registrar issues exactly one registration call. -/
theorem register_calls_ok (w : AwsWorld) (img proj role : String) (y : Yaml) (a : String)
    (h : (register_task_definition w img proj role y).outcome = Outcome.ok a) :
    ∃ s, registerCallsOf (register_task_definition w img proj role y).calls
      = [mkTaskDefParams img proj role s w.region] := by
  cases y with
  | map entries =>
    simp only [register_task_definition] at h ⊢
    cases hb : buildSecrets w entries with
    | mk ob cb pb =>
      have hm := buildSecrets_no_mutations w entries
      rw [hb] at hm h
      cases ob with
      | ok secrets =>
        refine ⟨secrets, ?_⟩
        simp only [registerCallsOf, List.filterMap_append] at hm ⊢
        rw [hm.2.2.1]
        rfl
      | exited code => exact absurd h (by simp)
      | uncaught exn => exact absurd h (by simp)
  | null => exact absurd h (by simp [register_task_definition])
  | str s => exact absurd h (by simp [register_task_definition])
  | seq items => exact absurd h (by simp [register_task_definition])

/-- On failure (exit or uncaught exception) the registrar has issued no
registration call. -/
theorem register_calls_not_ok (w : AwsWorld) (img proj role : String) (y : Yaml)
    (h : ∀ a, (register_task_definition w img proj role y).outcome ≠ Outcome.ok a) :
    registerCallsOf (register_task_definition w img proj role y).calls = [] := by
  cases y with
  | map entries =>
    simp only [register_task_definition] at h ⊢
    cases hb : buildSecrets w entries with
    | mk ob cb pb =>
      have hm := buildSecrets_no_mutations w entries
      rw [hb] at hm h
      cases ob with
      | ok secrets => exact absurd rfl (h w.newTaskDefArn)
      | exited code => exact hm.2.2.1
      | uncaught exn => exact hm.2.2.1
  | null => rfl
  | str s => rfl
  | seq items => rfl

/-- Active service: the reconciler's trace is two probes and one forced
update. -/
theorem deploy_calls_update (w : AwsWorld) (c n td tg : String) (sub sg : List String)
    (h : serviceExistsCheck w c n = true) :
    deploy_service w c n td tg sub sg =
      ⟨[AwsCall.describeServices c [n], AwsCall.describeServices c [n],
        AwsCall.updateService ⟨c, n, td, true⟩],
       [deployStartMsg n, deployUpdateMsg, deployDoneMsg]⟩ := by
  simp [deploy_service, h]

/-- Absent or inactive service: the trace is two probes and one create. -/
theorem deploy_calls_create (w : AwsWorld) (c n td tg : String) (sub sg : List String)
    (h : serviceExistsCheck w c n = false) :
    deploy_service w c n td tg sub sg =
      ⟨[AwsCall.describeServices c [n], AwsCall.describeServices c [n],
        AwsCall.createService (mkCreateServiceParams c n td tg sub sg)],
       [deployStartMsg n, deployCreateMsg, deployDoneMsg]⟩ := by
  simp [deploy_service, h]

/-- The code's boolean existence check agrees with the claim-side
ABSENT condition. -/
theorem serviceExistsCheck_false_iff (w : AwsWorld) (c n : String) :
    serviceExistsCheck w c n = false ↔ serviceAbsentOrInactive w c n := by
  unfold serviceExistsCheck serviceAbsentOrInactive
  cases h : lookupService w c n with
  | none => simp
  | some svc =>
    by_cases hst : svc.status = "INACTIVE"
    · simp [hst]
    · simp [hst]

theorem createParamsOf_append (l1 l2 : List AwsCall) :
    createParamsOf (l1 ++ l2) = createParamsOf l1 ++ createParamsOf l2 :=
  List.filterMap_append l1 l2 _

theorem updateCallsOf_append (l1 l2 : List AwsCall) :
    updateCallsOf (l1 ++ l2) = updateCallsOf l1 ++ updateCallsOf l2 :=
  List.filterMap_append l1 l2 _

theorem registerCallsOf_append (l1 l2 : List AwsCall) :
    registerCallsOf (l1 ++ l2) = registerCallsOf l1 ++ registerCallsOf l2 :=
  List.filterMap_append l1 l2 _

/-- Decomposition of a run whose configuration loads successfully: the
banner, the target-group stage, one STS call, the registration stage,
and — only when registration succeeds — the deployment stage. -/
theorem mainRun_ok_split (w : AwsWorld) (args : Args) (env_map : Yaml)
    (hl : loadEnvMap args.env_yml = Except.ok env_map) :
    mainRun w args =
      match (mainReg w args env_map).outcome with
      | Outcome.ok td_arn =>
        ⟨Outcome.ok (),
         (mainTg w args).calls ++ [AwsCall.getCallerIdentity] ++ (mainReg w args env_map).calls
           ++ (mainDep w args td_arn).calls,
         bannerMsg args.project :: ((mainTg w args).prints ++ (mainReg w args env_map).prints
           ++ (mainDep w args td_arn).prints) ++ [finalMsg]⟩
      | Outcome.exited c =>
        ⟨Outcome.exited c,
         (mainTg w args).calls ++ [AwsCall.getCallerIdentity] ++ (mainReg w args env_map).calls,
         bannerMsg args.project :: ((mainTg w args).prints ++ (mainReg w args env_map).prints)⟩
      | Outcome.uncaught e =>
        ⟨Outcome.uncaught e,
         (mainTg w args).calls ++ [AwsCall.getCallerIdentity] ++ (mainReg w args env_map).calls,
         bannerMsg args.project :: ((mainTg w args).prints ++ (mainReg w args env_map).prints)⟩ := by
  simp only [mainRun, hl]
  rfl

/- ---------- the claims ---------- -/

/-- C1: every invocation of `deploy_service` issues exactly one
orchestrator mutation: one create and zero updates when no service is
found or the found one is in the terminal INACTIVE status, and one
forced update (`forceNewDeployment = true`) and zero creates when an
active service is found. -/
theorem c1_reconciler_single_mutation (w : AwsWorld)
    (cluster_name service_name task_def_arn tg_arn : String)
    (subnets security_groups : List String) :
    (createParamsOf (deploy_service w cluster_name service_name task_def_arn tg_arn subnets security_groups).calls).length
      + (updateCallsOf (deploy_service w cluster_name service_name task_def_arn tg_arn subnets security_groups).calls).length = 1
  ∧ (serviceAbsentOrInactive w cluster_name service_name →
      createParamsOf (deploy_service w cluster_name service_name task_def_arn tg_arn subnets security_groups).calls
        = [mkCreateServiceParams cluster_name service_name task_def_arn tg_arn subnets security_groups]
      ∧ updateCallsOf (deploy_service w cluster_name service_name task_def_arn tg_arn subnets security_groups).calls = [])
  ∧ (¬ serviceAbsentOrInactive w cluster_name service_name →
      updateCallsOf (deploy_service w cluster_name service_name task_def_arn tg_arn subnets security_groups).calls
        = [⟨cluster_name, service_name, task_def_arn, true⟩]
      ∧ createParamsOf (deploy_service w cluster_name service_name task_def_arn tg_arn subnets security_groups).calls = []) := by
  cases hb : serviceExistsCheck w cluster_name service_name with
  | false =>
    have habs : serviceAbsentOrInactive w cluster_name service_name :=
      (serviceExistsCheck_false_iff w cluster_name service_name).mp hb
    rw [deploy_calls_create w cluster_name service_name task_def_arn tg_arn subnets security_groups hb]
    refine ⟨?_, fun _ => ⟨?_, ?_⟩, fun hn => absurd habs hn⟩ <;>
      simp [createParamsOf, updateCallsOf]
  | true =>
    have hnabs : ¬ serviceAbsentOrInactive w cluster_name service_name := by
      intro habs
      have hfalse := (serviceExistsCheck_false_iff w cluster_name service_name).mpr habs
      rw [hb] at hfalse
      exact Bool.noConfusion hfalse
    rw [deploy_calls_update w cluster_name service_name task_def_arn tg_arn subnets security_groups hb]
    refine ⟨?_, fun habs => absurd habs hnabs, fun _ => ⟨?_, ?_⟩⟩ <;>
      simp [createParamsOf, updateCallsOf]

/-- Witness for C1: against an empty world the reconciler creates, and
against a world with an active service it issues the forced update. -/
theorem c1_reconciler_single_mutation_witness :
    createParamsOf (deploy_service demoWorld "clu" "proj-service" "td" "tg" [] []).calls
      = [mkCreateServiceParams "clu" "proj-service" "td" "tg" [] []]
  ∧ updateCallsOf (deploy_service demoWorldActive "clu" "proj-service" "td" "tg" [] []).calls
      = [⟨"clu", "proj-service", "td", true⟩] := by
  constructor
  · exact ((c1_reconciler_single_mutation demoWorld "clu" "proj-service" "td" "tg" [] []).2.1
      (Or.inl (by decide))).1
  · refine ((c1_reconciler_single_mutation demoWorldActive "clu" "proj-service" "td" "tg" [] []).2.2 ?_).1
    intro habs
    have hfalse := (serviceExistsCheck_false_iff demoWorldActive "clu" "proj-service").mpr habs
    have htrue : serviceExistsCheck demoWorldActive "clu" "proj-service" = true := by decide
    rw [htrue] at hfalse
    exact Bool.noConfusion hfalse

/-- C3 counterexample: even when the path exists, the resolver issues a
second remote call (STS `get_caller_identity`) besides the existence
check, so "no remote call beyond the single existence check" is false. -/
theorem c3_extra_remote_call_counterexample :
    (get_ssm_parameter_arn demoWorld "/prod/db_pass").outcome
      = Outcome.ok (mkSsmArn "us-east-1" "123456789012" "/prod/db_pass")
  ∧ (get_ssm_parameter_arn demoWorld "/prod/db_pass").calls
      ≠ [AwsCall.getParameter "/prod/db_pass"]
  ∧ AwsCall.getCallerIdentity ∈ (get_ssm_parameter_arn demoWorld "/prod/db_pass").calls
  ∧ ((get_ssm_parameter_arn demoWorld "/prod/db_pass").calls.filter isRemoteCall).length = 2 := by
  decide

/-- C3 (amended): for an existing path the resolver returns the ARN as
a pure deterministic function of (region, account id, path), performing
exactly one parameter-store call (the existence check) plus one
identity-service call for the account id, and prints nothing. -/
theorem c3_arn_deterministic (w : AwsWorld) (p : String) (h : paramExists w p = true) :
    get_ssm_parameter_arn w p =
      ⟨Outcome.ok (mkSsmArn w.region w.accountId p),
       [AwsCall.getParameter p, AwsCall.getCallerIdentity], []⟩ := by
  unfold get_ssm_parameter_arn
  unfold paramExists at h
  cases hl : lookupParam w p with
  | none => rw [hl] at h; exact absurd h (by simp)
  | some v => rfl

/-- Witness for C3 (amended) at a concrete world and path. -/
theorem c3_arn_deterministic_witness :
    get_ssm_parameter_arn demoWorld "/prod/db_pass" =
      ⟨Outcome.ok (mkSsmArn "us-east-1" "123456789012" "/prod/db_pass"),
       [AwsCall.getParameter "/prod/db_pass", AwsCall.getCallerIdentity], []⟩ :=
  c3_arn_deterministic demoWorld "/prod/db_pass" (by decide)

/-- C4: when the group already exists the resolver returns its ARN
unchanged, mutates nothing (no creation call, state untouched); when it
is absent, two successive invocations perform at most one creation call
and return the same ARN both times. -/
theorem c4_target_group_idempotent (w : AwsWorld) (vpc_id project_name : String) (port : Nat) :
    (∀ arn, lookupTg w (project_name ++ "-tg") = some arn →
       (get_or_create_target_group w vpc_id project_name port).arn = arn ∧
       (get_or_create_target_group w vpc_id project_name port).world = w ∧
       createTgCallsOf (get_or_create_target_group w vpc_id project_name port).calls = [])
  ∧ (lookupTg w (project_name ++ "-tg") = none →
       (get_or_create_target_group
           (get_or_create_target_group w vpc_id project_name port).world vpc_id project_name port).arn
         = (get_or_create_target_group w vpc_id project_name port).arn ∧
       (createTgCallsOf ((get_or_create_target_group w vpc_id project_name port).calls
           ++ (get_or_create_target_group
                 (get_or_create_target_group w vpc_id project_name port).world vpc_id project_name port).calls)).length ≤ 1) := by
  constructor
  · intro arn h
    rw [gct_exists w vpc_id project_name port arn h]
    exact ⟨rfl, rfl, rfl⟩
  · intro h
    rw [gct_absent w vpc_id project_name port h]
    have h2 : lookupTg
        { w with targetGroups := (project_name ++ "-tg", w.newTgArn) :: w.targetGroups }
        (project_name ++ "-tg") = some w.newTgArn := by
      unfold lookupTg lookupStr
      simp
    rw [gct_exists _ vpc_id project_name port _ h2]
    constructor
    · rfl
    · simp [createTgCallsOf]

/-- Witness for C4: two runs against the empty demo world agree on the
returned ARN and create at most once. -/
theorem c4_target_group_idempotent_witness :
    (get_or_create_target_group
        (get_or_create_target_group demoWorld "vpc-1" "proj" 8000).world "vpc-1" "proj" 8000).arn
      = (get_or_create_target_group demoWorld "vpc-1" "proj" 8000).arn
  ∧ (createTgCallsOf ((get_or_create_target_group demoWorld "vpc-1" "proj" 8000).calls
      ++ (get_or_create_target_group
            (get_or_create_target_group demoWorld "vpc-1" "proj" 8000).world "vpc-1" "proj" 8000).calls)).length ≤ 1 :=
  (c4_target_group_idempotent demoWorld "vpc-1" "proj" 8000).2 (by decide)

/-- C6: a configuration file that is unreadable, malformed or missing
the expected top-level key makes the process print the diagnostic and
exit with status 1, having issued no remote call at all. -/
theorem c6_config_failure_exits (w : AwsWorld) (args : Args) (e : String)
    (h : loadEnvMap args.env_yml = Except.error e) :
    (mainRun w args).outcome = Outcome.exited 1 ∧
    (mainRun w args).calls = [] ∧
    (mainRun w args).prints = [bannerMsg args.project, configDiag args.env_yml_path e] := by
  simp [mainRun, h]

/-- Witness for C6 at an unreadable configuration file. -/
theorem c6_config_failure_exits_witness :
    (mainRun demoWorld demoArgsBadCfg).outcome = Outcome.exited 1 ∧
    (mainRun demoWorld demoArgsBadCfg).calls = [] ∧
    (mainRun demoWorld demoArgsBadCfg).prints
      = [bannerMsg "proj",
         configDiag "env.yml" "[Errno 2] No such file or directory: \x27env.yml\x27"] :=
  c6_config_failure_exits demoWorld demoArgsBadCfg _ rfl

/-- C8 counterexample: for the project name `a-serviceb` (which contains
the substring `-service`), the container name used in the create-service
load-balancer binding differs from the container name registered in the
task definition, so the claim's "for every project name" is false. -/
theorem c8_container_name_counterexample :
    (mkCreateServiceParams "clu" ("a-serviceb" ++ "-service") "td" "tg" [] []).lbContainerName
      ≠ (mkTaskDefParams "img" "a-serviceb" "role" [] "us-east-1").containerName := by
  decide

/-- C8 (amended): whenever the substring `-service` does not occur in
the project name, the load-balancer binding of the create-service call
and the registered task definition agree on the container name, both
being `<project>-container`. -/
theorem c8_container_names_agree (project cluster_name task_def_arn tg_arn image role region : String)
    (subnets security_groups : List String) (secrets : List SecretRef)
    (h : containsSeq svcPat project.toList = false) :
    (mkCreateServiceParams cluster_name (project ++ "-service") task_def_arn tg_arn subnets security_groups).lbContainerName
      = (mkTaskDefParams image project role secrets region).containerName := by
  show pyStripService (project ++ "-service") ++ "-container" = project ++ "-container"
  rw [pyStripService_append project h]

/-- Adequacy of the `firstMissingParam` formulation: a mapping has a
first missing path exactly when it contains some missing path. -/
theorem firstMissingParam_some_iff (ps : List (String × String)) :
    ∀ (entries : List (String × String)),
      (∃ p, firstMissingParam ps entries = some p) ↔
        ∃ e ∈ entries, lookupStr e.2 ps = none
  | [] => by simp [firstMissingParam]
  | (n, path) :: rest => by
    simp only [firstMissingParam]
    cases hl : lookupStr path ps with
    | some v =>
      rw [firstMissingParam_some_iff ps rest]
      constructor
      · rintro ⟨e, he, hm⟩
        exact ⟨e, List.mem_cons_of_mem _ he, hm⟩
      · rintro ⟨e, he, hm⟩
        rcases List.mem_cons.mp he with rfl | he2
        · rw [hl] at hm; cases hm
        · exact ⟨e, he2, hm⟩
    | none =>
      constructor
      · intro _
        exact ⟨(n, path), List.mem_cons_self _ _, hl⟩
      · intro _
        exact ⟨path, rfl⟩

/-- When the configuration maps names to string paths and some path is
missing from the store, the secrets loop exits with status 1 and prints
the diagnostic naming the first missing path. -/
theorem buildSecrets_missing (w : AwsWorld) :
    ∀ (entries : List (String × String)) (p : String),
      firstMissingParam w.ssmParams entries = some p →
      (buildSecrets w (List.map (fun e => (e.1, Yaml.str e.2)) entries)).outcome
        = Outcome.exited 1 ∧
      ssmMissingMsg p ∈ (buildSecrets w (List.map (fun e => (e.1, Yaml.str e.2)) entries)).prints
  | [], p, h => by simp [firstMissingParam] at h
  | (n, path) :: rest, p, h => by
    simp only [firstMissingParam] at h
    cases hl : lookupStr path w.ssmParams with
    | some v =>
      rw [hl] at h
      have ih := buildSecrets_missing w rest p h
      simp only [List.map_cons, buildSecrets]
      have hssm : get_ssm_parameter_arn w path =
          ⟨Outcome.ok (mkSsmArn w.region w.accountId path),
           [AwsCall.getParameter path, AwsCall.getCallerIdentity], []⟩ := by
        unfold get_ssm_parameter_arn lookupParam
        rw [hl]
      rw [hssm]
      cases hb : buildSecrets w (List.map (fun e => (e.1, Yaml.str e.2)) rest) with
      | mk ob cb pb =>
        rw [hb] at ih
        cases ob with
        | ok s => exact absurd ih.1 (by simp)
        | exited code =>
          have hcode : code = 1 := by
            have h1 : Outcome.exited (α := List SecretRef) code = Outcome.exited 1 := ih.1
            injection h1
          subst hcode
          refine ⟨rfl, ?_⟩
          have hpm : ssmMissingMsg p ∈ pb := ih.2
          simp only [List.nil_append]
          exact hpm
        | uncaught exn => exact absurd ih.1 (by simp)
    | none =>
      rw [hl] at h
      have hp : p = path := by injection h with h1; exact h1.symm
      subst hp
      simp only [List.map_cons, buildSecrets]
      have hssm : get_ssm_parameter_arn w p =
          ⟨Outcome.exited 1, [AwsCall.getParameter p], [ssmMissingMsg p]⟩ := by
        unfold get_ssm_parameter_arn lookupParam
        rw [hl]
      rw [hssm]
      exact ⟨rfl, by simp⟩

/-- C2: whenever the (string-valued) configuration mapping contains a
path absent from the parameter store, the whole run prints the
diagnostic naming the first such missing path and exits with status 1,
and no task-definition registration call is ever issued. -/
theorem c2_missing_secret_aborts (w : AwsWorld) (args : Args)
    (entries : List (String × String)) (p : String)
    (hcfg : loadEnvMap args.env_yml
      = Except.ok (Yaml.map (List.map (fun e => (e.1, Yaml.str e.2)) entries)))
    (hmiss : firstMissingParam w.ssmParams entries = some p) :
    (mainRun w args).outcome = Outcome.exited 1 ∧
    registerCallsOf (mainRun w args).calls = [] ∧
    ssmMissingMsg p ∈ (mainRun w args).prints := by
  have hfields := gct_world_fields w args.vpc_id args.project 8000
  have hmiss2 : firstMissingParam
      (get_or_create_target_group w args.vpc_id args.project 8000).world.ssmParams entries
        = some p := by
    rw [hfields.2.2.1]; exact hmiss
  have hbm := buildSecrets_missing
    (get_or_create_target_group w args.vpc_id args.project 8000).world entries p hmiss2
  cases hb : buildSecrets (get_or_create_target_group w args.vpc_id args.project 8000).world
      (List.map (fun e => (e.1, Yaml.str e.2)) entries) with
  | mk ob cb pb =>
    rw [hb] at hbm
    have hob : ob = Outcome.exited 1 := hbm.1
    subst hob
    have hreg : ∀ role,
        register_task_definition (get_or_create_target_group w args.vpc_id args.project 8000).world
          args.image args.project role
          (Yaml.map (List.map (fun e => (e.1, Yaml.str e.2)) entries))
        = ⟨Outcome.exited 1, cb, regGenMsg :: pb⟩ := by
      intro role
      simp only [register_task_definition]
      rw [hb]
    simp only [mainRun, hcfg, get_account_id]
    rw [hreg]
    refine ⟨rfl, ?_, ?_⟩
    · have h1 := (gct_calls_shape w args.vpc_id args.project 8000).2.2.1
      have h2 := (buildSecrets_no_mutations
        (get_or_create_target_group w args.vpc_id args.project 8000).world
        (List.map (fun e => (e.1, Yaml.str e.2)) entries)).2.2.1
      rw [hb] at h2
      simp only [registerCallsOf, List.filterMap_append] at h1 h2 ⊢
      rw [h1, h2]
      rfl
    · have hpm : ssmMissingMsg p ∈ pb := hbm.2
      exact List.mem_cons_of_mem _
        (List.mem_append_right _ (List.mem_cons_of_mem _ hpm))

/-- Witness for C2: a demo run whose configuration names the absent
path `/prod/absent`. -/
theorem c2_missing_secret_aborts_witness :
    (mainRun demoWorld demoArgsMissing).outcome = Outcome.exited 1 ∧
    registerCallsOf (mainRun demoWorld demoArgsMissing).calls = [] ∧
    ssmMissingMsg "/prod/absent" ∈ (mainRun demoWorld demoArgsMissing).prints :=
  c2_missing_secret_aborts demoWorld demoArgsMissing [("DB", "/prod/absent")] "/prod/absent"
    rfl rfl

/-- C5 counterexample: a run whose configuration file is unreadable
performs zero service creations and zero service updates, so "exactly
one of {one service creation, one service update} occurs" fails for
that run. -/
theorem c5_run_invariant_counterexample :
    ¬ ((createParamsOf (mainRun demoWorld demoArgsBadCfg).calls).length
        + (updateCallsOf (mainRun demoWorld demoArgsBadCfg).calls).length = 1) := by
  decide

/-- C5 (amended): every run registers at most one task-definition
revision and performs at most one service mutation, and never both a
creation and an update; a run that completes normally performs exactly
one registration and exactly one of {one creation, one update}; a run
that aborts early (exit or uncaught exception) performs no service
mutation at all. -/
theorem c5_run_invariant (w : AwsWorld) (args : Args) :
    (registerCallsOf (mainRun w args).calls).length ≤ 1
  ∧ (createParamsOf (mainRun w args).calls).length
      + (updateCallsOf (mainRun w args).calls).length ≤ 1
  ∧ ((mainRun w args).outcome = Outcome.ok () →
      (registerCallsOf (mainRun w args).calls).length = 1
      ∧ (createParamsOf (mainRun w args).calls).length
          + (updateCallsOf (mainRun w args).calls).length = 1)
  ∧ ((mainRun w args).outcome ≠ Outcome.ok () →
      (createParamsOf (mainRun w args).calls).length
        + (updateCallsOf (mainRun w args).calls).length = 0) := by
  have hg1 : createParamsOf (mainTg w args).calls = [] :=
    (gct_calls_shape w args.vpc_id args.project 8000).1
  have hg2 : updateCallsOf (mainTg w args).calls = [] :=
    (gct_calls_shape w args.vpc_id args.project 8000).2.1
  have hg3 : registerCallsOf (mainTg w args).calls = [] :=
    (gct_calls_shape w args.vpc_id args.project 8000).2.2.1
  cases hl : loadEnvMap args.env_yml with
  | error e => simp [mainRun, hl, createParamsOf, updateCallsOf, registerCallsOf]
  | ok env_map =>
    have hr1 : createParamsOf (mainReg w args env_map).calls = [] :=
      (register_no_service_calls (mainTg w args).world args.image args.project
        (execRoleArn (mainTg w args).world.accountId) env_map).1
    have hr2 : updateCallsOf (mainReg w args env_map).calls = [] :=
      (register_no_service_calls (mainTg w args).world args.image args.project
        (execRoleArn (mainTg w args).world.accountId) env_map).2
    rw [mainRun_ok_split w args env_map hl]
    cases hro : (mainReg w args env_map).outcome with
    | ok td_arn =>
      have hreg : ∃ s, registerCallsOf (mainReg w args env_map).calls
          = [mkTaskDefParams args.image args.project
              (execRoleArn (mainTg w args).world.accountId) s (mainTg w args).world.region] :=
        register_calls_ok (mainTg w args).world args.image args.project
          (execRoleArn (mainTg w args).world.accountId) env_map td_arn hro
      obtain ⟨s, hs⟩ := hreg
      cases hdep : serviceExistsCheck (mainTg w args).world args.cluster (args.project ++ "-service") with
      | false =>
        have hD : mainDep w args td_arn =
            ⟨[AwsCall.describeServices args.cluster [args.project ++ "-service"],
              AwsCall.describeServices args.cluster [args.project ++ "-service"],
              AwsCall.createService (mkCreateServiceParams args.cluster (args.project ++ "-service")
                td_arn (mainTg w args).arn (pySplitComma args.subnets) (pySplitComma args.security_groups))],
             [deployStartMsg (args.project ++ "-service"), deployCreateMsg, deployDoneMsg]⟩ :=
          deploy_calls_create _ _ _ _ _ _ _ hdep
        simp only [hD, createParamsOf_append, updateCallsOf_append, registerCallsOf_append,
          hg1, hg2, hg3, hr1, hr2, hs]
        simp [createParamsOf, updateCallsOf, registerCallsOf]
      | true =>
        have hD : mainDep w args td_arn =
            ⟨[AwsCall.describeServices args.cluster [args.project ++ "-service"],
              AwsCall.describeServices args.cluster [args.project ++ "-service"],
              AwsCall.updateService ⟨args.cluster, args.project ++ "-service", td_arn, true⟩],
             [deployStartMsg (args.project ++ "-service"), deployUpdateMsg, deployDoneMsg]⟩ :=
          deploy_calls_update _ _ _ _ _ _ _ hdep
        simp only [hD, createParamsOf_append, updateCallsOf_append, registerCallsOf_append,
          hg1, hg2, hg3, hr1, hr2, hs]
        simp [createParamsOf, updateCallsOf, registerCallsOf]
    | exited c =>
      have hrc : registerCallsOf (mainReg w args env_map).calls = [] :=
        register_calls_not_ok (mainTg w args).world args.image args.project
          (execRoleArn (mainTg w args).world.accountId) env_map
          (fun a => by show (mainReg w args env_map).outcome ≠ Outcome.ok a; rw [hro]; simp)
      simp only [createParamsOf_append, updateCallsOf_append, registerCallsOf_append,
        hg1, hg2, hg3, hr1, hr2, hrc]
      simp [createParamsOf, updateCallsOf, registerCallsOf]
    | uncaught exn =>
      have hrc : registerCallsOf (mainReg w args env_map).calls = [] :=
        register_calls_not_ok (mainTg w args).world args.image args.project
          (execRoleArn (mainTg w args).world.accountId) env_map
          (fun a => by show (mainReg w args env_map).outcome ≠ Outcome.ok a; rw [hro]; simp)
      simp only [createParamsOf_append, updateCallsOf_append, registerCallsOf_append,
        hg1, hg2, hg3, hr1, hr2, hrc]
      simp [createParamsOf, updateCallsOf, registerCallsOf]

/-- Witness for C5 (amended): a completed demo run registers exactly one
revision and performs exactly one service mutation. -/
theorem c5_run_invariant_witness :
    (registerCallsOf (mainRun demoWorld demoArgs).calls).length = 1
    ∧ (createParamsOf (mainRun demoWorld demoArgs).calls).length
        + (updateCallsOf (mainRun demoWorld demoArgs).calls).length = 1 :=
  (c5_run_invariant demoWorld demoArgs).2.2.1 (by decide)

/-- The secret resolver's behaviour depends on the store only through
which paths exist, never through the stored values. -/
theorem get_ssm_congr (w1 w2 : AwsWorld) (hr : w1.region = w2.region)
    (ha : w1.accountId = w2.accountId)
    (hp : ∀ q, paramExists w1 q = paramExists w2 q) (p : String) :
    get_ssm_parameter_arn w1 p = get_ssm_parameter_arn w2 p := by
  have hpp := hp p
  unfold paramExists at hpp
  unfold get_ssm_parameter_arn
  cases h1 : lookupParam w1 p with
  | none =>
    cases h2 : lookupParam w2 p with
    | none => rfl
    | some v => rw [h1, h2] at hpp; simp at hpp
  | some v =>
    cases h2 : lookupParam w2 p with
    | none => rw [h1, h2] at hpp; simp at hpp
    | some v2 => rw [hr, ha]

/-- The secrets loop likewise only observes path existence. -/
theorem buildSecrets_congr (w1 w2 : AwsWorld) (hr : w1.region = w2.region)
    (ha : w1.accountId = w2.accountId)
    (hp : ∀ q, paramExists w1 q = paramExists w2 q) :
    ∀ entries, buildSecrets w1 entries = buildSecrets w2 entries
  | [] => rfl
  | (n, v) :: rest => by
    cases v with
    | str path =>
      simp only [buildSecrets]
      rw [get_ssm_congr w1 w2 hr ha hp path, buildSecrets_congr w1 w2 hr ha hp rest]
    | null => rfl
    | seq items => rfl
    | map m => rfl

/-- The registrar only observes region, account id, path existence, and
the revision ARN the cloud would mint. -/
theorem register_congr (w1 w2 : AwsWorld) (hr : w1.region = w2.region)
    (ha : w1.accountId = w2.accountId)
    (hp : ∀ q, paramExists w1 q = paramExists w2 q)
    (hn : w1.newTaskDefArn = w2.newTaskDefArn)
    (img proj role : String) (y : Yaml) :
    register_task_definition w1 img proj role y
      = register_task_definition w2 img proj role y := by
  cases y with
  | map entries =>
    simp only [register_task_definition]
    rw [buildSecrets_congr w1 w2 hr ha hp entries, hr, hn]
  | null => rfl
  | str s => rfl
  | seq items => rfl

/-- C7: two parameter stores that agree on which paths exist but may
disagree on every stored value are indistinguishable to the whole run —
same outcome, same remote calls, same printed lines.  The resolver never
reads a secret's value. -/
theorem c7_value_independence (r a : String) (ps1 ps2 tgs : List (String × String))
    (svcs : List (String × String × ServiceDesc)) (ntg ntd : String) (args : Args)
    (h : ∀ q, (lookupStr q ps1).isSome = (lookupStr q ps2).isSome) :
    mainRun ⟨r, a, ps1, tgs, svcs, ntg, ntd⟩ args
      = mainRun ⟨r, a, ps2, tgs, svcs, ntg, ntd⟩ args := by
  unfold mainRun
  cases hl : loadEnvMap args.env_yml with
  | error e => rfl
  | ok env_map =>
    cases htg : lookupStr (args.project ++ "-tg") tgs with
    | some arn =>
      have htg1 : lookupTg ⟨r, a, ps1, tgs, svcs, ntg, ntd⟩ (args.project ++ "-tg") = some arn := htg
      have htg2 : lookupTg ⟨r, a, ps2, tgs, svcs, ntg, ntd⟩ (args.project ++ "-tg") = some arn := htg
      rw [gct_exists ⟨r, a, ps1, tgs, svcs, ntg, ntd⟩ args.vpc_id args.project 8000 arn htg1,
          gct_exists ⟨r, a, ps2, tgs, svcs, ntg, ntd⟩ args.vpc_id args.project 8000 arn htg2]
      dsimp only
      rw [register_congr ⟨r, a, ps1, tgs, svcs, ntg, ntd⟩ ⟨r, a, ps2, tgs, svcs, ntg, ntd⟩
        rfl rfl h rfl args.image args.project _ env_map]
      rfl
    | none =>
      have htg1 : lookupTg ⟨r, a, ps1, tgs, svcs, ntg, ntd⟩ (args.project ++ "-tg") = none := htg
      have htg2 : lookupTg ⟨r, a, ps2, tgs, svcs, ntg, ntd⟩ (args.project ++ "-tg") = none := htg
      rw [gct_absent ⟨r, a, ps1, tgs, svcs, ntg, ntd⟩ args.vpc_id args.project 8000 htg1,
          gct_absent ⟨r, a, ps2, tgs, svcs, ntg, ntd⟩ args.vpc_id args.project 8000 htg2]
      dsimp only
      rw [register_congr
        { region := r, accountId := a, ssmParams := ps1,
          targetGroups := (args.project ++ "-tg", ntg) :: tgs, services := svcs,
          newTgArn := ntg, newTaskDefArn := ntd }
        { region := r, accountId := a, ssmParams := ps2,
          targetGroups := (args.project ++ "-tg", ntg) :: tgs, services := svcs,
          newTgArn := ntg, newTaskDefArn := ntd }
        rfl rfl h rfl args.image args.project _ env_map]
      rfl

/-- Witness for C7: stores holding different values for the same
existing path produce byte-identical runs. -/
theorem c7_value_independence_witness :
    mainRun ⟨"us-east-1", "123456789012", [("/prod/db_pass", "hunter2")], [], [],
      "arn:tg/new", "arn:td/new"⟩ demoArgs
    = mainRun ⟨"us-east-1", "123456789012", [("/prod/db_pass", "s3cr3t-rotated")], [], [],
      "arn:tg/new", "arn:td/new"⟩ demoArgs :=
  c7_value_independence "us-east-1" "123456789012"
    [("/prod/db_pass", "hunter2")] [("/prod/db_pass", "s3cr3t-rotated")] [] [] "arn:tg/new" "arn:td/new"
    demoArgs (by
      intro q
      by_cases hq : "/prod/db_pass" = q <;> simp [lookupStr, hq])

/-- C9: the subnet and security-group lists handed to the
service-creation call are exactly the comma-splits of the command-line
strings; the split is lossless (order kept, nothing trimmed, no empty
field dropped — re-joining with commas restores the input), and a
trailing comma or an empty argument yields an empty-string field. -/
theorem c9_comma_splits :
    (∀ (w : AwsWorld) (args : Args),
       ∀ p ∈ createParamsOf (mainRun w args).calls,
         p.subnets = pySplitComma args.subnets
         ∧ p.securityGroups = pySplitComma args.security_groups)
  ∧ (∀ l : List Char, joinComma (splitComma l) = l)
  ∧ pySplitComma "subnet-a,subnet-b," = ["subnet-a", "subnet-b", ""]
  ∧ pySplitComma "" = [""] := by
  refine ⟨?_, joinComma_splitComma, by decide, by decide⟩
  intro w args p hp
  cases hl : loadEnvMap args.env_yml with
  | error e =>
    rw [show mainRun w args
        = ⟨Outcome.exited 1, [], [bannerMsg args.project, configDiag args.env_yml_path e]⟩
      from by simp [mainRun, hl]] at hp
    simp [createParamsOf] at hp
  | ok env_map =>
    rw [mainRun_ok_split w args env_map hl] at hp
    have hg1 : createParamsOf (mainTg w args).calls = [] :=
      (gct_calls_shape w args.vpc_id args.project 8000).1
    have hr1 : createParamsOf (mainReg w args env_map).calls = [] :=
      (register_no_service_calls (mainTg w args).world args.image args.project
        (execRoleArn (mainTg w args).world.accountId) env_map).1
    cases hro : (mainReg w args env_map).outcome with
    | ok td_arn =>
      rw [hro] at hp
      cases hdep : serviceExistsCheck (mainTg w args).world args.cluster
          (args.project ++ "-service") with
      | false =>
        have hD : mainDep w args td_arn =
            ⟨[AwsCall.describeServices args.cluster [args.project ++ "-service"],
              AwsCall.describeServices args.cluster [args.project ++ "-service"],
              AwsCall.createService (mkCreateServiceParams args.cluster (args.project ++ "-service")
                td_arn (mainTg w args).arn (pySplitComma args.subnets) (pySplitComma args.security_groups))],
             [deployStartMsg (args.project ++ "-service"), deployCreateMsg, deployDoneMsg]⟩ :=
          deploy_calls_create _ _ _ _ _ _ _ hdep
        simp only [hD, createParamsOf_append, hg1, hr1] at hp
        simp [createParamsOf] at hp
        subst hp
        exact ⟨rfl, rfl⟩
      | true =>
        have hD : mainDep w args td_arn =
            ⟨[AwsCall.describeServices args.cluster [args.project ++ "-service"],
              AwsCall.describeServices args.cluster [args.project ++ "-service"],
              AwsCall.updateService ⟨args.cluster, args.project ++ "-service", td_arn, true⟩],
             [deployStartMsg (args.project ++ "-service"), deployUpdateMsg, deployDoneMsg]⟩ :=
          deploy_calls_update _ _ _ _ _ _ _ hdep
        simp only [hD, createParamsOf_append, hg1, hr1] at hp
        simp [createParamsOf] at hp
    | exited c =>
      rw [hro] at hp
      simp only [createParamsOf_append, hg1, hr1] at hp
      simp [createParamsOf] at hp
    | uncaught exn =>
      rw [hro] at hp
      simp only [createParamsOf_append, hg1, hr1] at hp
      simp [createParamsOf] at hp

/-- Witness for C9: the create call of the demo run receives the
verbatim splits, keeping the empty field of the trailing comma. -/
theorem c9_comma_splits_witness :
    (mkCreateServiceParams "clu" ("proj" ++ "-service") "arn:td/new" "arn:tg/new"
        (pySplitComma "subnet-a,subnet-b") (pySplitComma "sg-1,")).subnets
      = pySplitComma "subnet-a,subnet-b"
  ∧ (mkCreateServiceParams "clu" ("proj" ++ "-service") "arn:td/new" "arn:tg/new"
        (pySplitComma "subnet-a,subnet-b") (pySplitComma "sg-1,")).securityGroups
      = pySplitComma "sg-1," :=
  c9_comma_splits.1 demoWorld demoArgs
    (mkCreateServiceParams "clu" ("proj" ++ "-service") "arn:td/new" "arn:tg/new"
      (pySplitComma "subnet-a,subnet-b") (pySplitComma "sg-1,")) (by decide)

/-- C10: the diagnosed configuration exit (status 1, before any remote
call) is taken exactly when loading the configuration raises — file
unreadable, YAML malformed, or the `variables` subscript failing; a
document whose `variables` key holds `null` passes this stage and dies
later with an uncaught `AttributeError`, after remote calls have already
been made. -/
theorem c10_config_exit_boundary :
    (∀ (w : AwsWorld) (args : Args),
        (∃ e, loadEnvMap args.env_yml = Except.error e) ↔
          ((mainRun w args).outcome = Outcome.exited 1 ∧ (mainRun w args).calls = []))
  ∧ (∀ (w : AwsWorld) (args : Args),
        args.env_yml = ConfigSrc.doc (Yaml.map [("variables", Yaml.null)]) →
          (mainRun w args).outcome = Outcome.uncaught attributeErrorMsg
          ∧ (mainRun w args).calls ≠ []) := by
  constructor
  · intro w args
    constructor
    · rintro ⟨e, he⟩
      simp [mainRun, he]
    · rintro ⟨ho, hc⟩
      cases hl : loadEnvMap args.env_yml with
      | error e => exact ⟨e, rfl⟩
      | ok env_map =>
        exfalso
        rw [mainRun_ok_split w args env_map hl] at hc
        cases hro : (mainReg w args env_map).outcome with
        | ok td => rw [hro] at hc; simp at hc
        | exited c => rw [hro] at hc; simp at hc
        | uncaught exn => rw [hro] at hc; simp at hc
  · intro w args h
    have hl : loadEnvMap args.env_yml = Except.ok Yaml.null := by rw [h]; rfl
    rw [mainRun_ok_split w args Yaml.null hl]
    have hreg : mainReg w args Yaml.null
        = ⟨Outcome.uncaught attributeErrorMsg, [], [regGenMsg]⟩ := rfl
    rw [hreg]
    exact ⟨rfl, by simp⟩

/-- Witness for C10: the unreadable-file run takes the diagnosed exit
with no calls; the `variables: null` run raises after remote calls. -/
theorem c10_config_exit_boundary_witness :
    ((mainRun demoWorld demoArgsBadCfg).outcome = Outcome.exited 1
      ∧ (mainRun demoWorld demoArgsBadCfg).calls = [])
  ∧ ((mainRun demoWorld demoArgsNullVars).outcome = Outcome.uncaught attributeErrorMsg
      ∧ (mainRun demoWorld demoArgsNullVars).calls ≠ []) :=
  ⟨(c10_config_exit_boundary.1 demoWorld demoArgsBadCfg).mp
      ⟨"[Errno 2] No such file or directory: \x27env.yml\x27", rfl⟩,
   c10_config_exit_boundary.2 demoWorld demoArgsNullVars rfl⟩

/-- Witness for C8 (amended) at the project name `myapp`. -/
theorem c8_container_names_agree_witness :
    (mkCreateServiceParams "clu" ("myapp" ++ "-service") "td" "tg" [] []).lbContainerName
      = (mkTaskDefParams "img" "myapp" "role" [] "us-east-1").containerName :=
  c8_container_names_agree "myapp" "clu" "td" "tg" "img" "role" "us-east-1" [] [] [] (by decide)

end Deploy
